import Mathlib

/-!
Verification of the scavenger repository: a shallow embedding of the
grep-based search tool, the configuration validator, the startup sequence
of the entry point, and the bounded tool-iteration loop of the agent
framework, together with theorems settling the specification claims.
-/

namespace Scavenger

/-- Arguments of the `grep_search` tool, with the Python default values
(src/main.py lines 12-17, src/tools/log_agent.py lines 25-33). -/
structure GrepArgs where
  pattern : String
  file_path : String
  line_numbers : Bool := true
  ignore_case : Bool := false
  context_lines : Int := 0
deriving DecidableEq

/-- Outcome of the external `subprocess.run` call, as observed by the
Python code: either the process completed with a return code, stdout and
stderr, or one of the exceptions caught at src/main.py lines 50-55
(`subprocess.TimeoutExpired`, `FileNotFoundError`, any other `Exception`)
was raised. -/
inductive ProcOutcome where
  | completed (returncode : Int) (stdout : String) (stderr : String)
  | timeoutExpired
  | fileNotFound
  | otherError (msg : String)
deriving DecidableEq

/-- What is passed to `subprocess.run`: the command list and the
`timeout` keyword argument. -/
structure ProcInvocation where
  cmd : List String
  timeout : Nat
deriving DecidableEq

namespace Main

/-- The command list built at src/main.py lines 22-33: `["grep"]`, then
`-n` when `line_numbers`, `-i` when `ignore_case`, `-C <n>` when
`context_lines > 0`, then the pattern and the file path. -/
def buildCmd (a : GrepArgs) : List String :=
  let cmd := ["grep"]
  let cmd := if a.line_numbers then cmd ++ ["-n"] else cmd
  let cmd := if a.ignore_case then cmd ++ ["-i"] else cmd
  let cmd := if a.context_lines > 0 then cmd ++ ["-C", toString a.context_lines] else cmd
  cmd ++ [a.pattern, a.file_path]

/-- The process invocation issued at src/main.py lines 36-41: the built
command with a timeout of 30. -/
def grepInvocation (a : GrepArgs) : ProcInvocation :=
  { cmd := buildCmd a, timeout := 30 }

/-- The `grep_search` function of src/main.py lines 12-55. The external
process is an oracle mapping the invocation to an outcome; every outcome
is converted to a result string, mirroring the if/elif/else over the
return code (lines 43-48) and the three exception handlers (lines 50-55). -/
def grep_search (a : GrepArgs) (run : ProcInvocation → ProcOutcome) : String :=
  match run (grepInvocation a) with
  | .completed rc out err =>
      if rc = 0 then "Found matches:\n" ++ out
      else if rc = 1 then
        "No matches found for pattern \x27" ++ a.pattern ++ "\x27 in file \x27" ++
          a.file_path ++ "\x27"
      else "Error running grep: " ++ err
  | .timeoutExpired => "Grep command timed out (30 seconds)"
  | .fileNotFound => "File not found: " ++ a.file_path
  | .otherError msg => "Error executing grep: " ++ msg

end Main

namespace LogAgent

/-- The command list built at src/tools/log_agent.py lines 38-49. -/
def buildCmd (a : GrepArgs) : List String :=
  let cmd := ["grep"]
  let cmd := if a.line_numbers then cmd ++ ["-n"] else cmd
  let cmd := if a.ignore_case then cmd ++ ["-i"] else cmd
  let cmd := if a.context_lines > 0 then cmd ++ ["-C", toString a.context_lines] else cmd
  cmd ++ [a.pattern, a.file_path]

/-- The process invocation issued at src/tools/log_agent.py lines 52-57:
the built command with a timeout of 30. -/
def grepInvocation (a : GrepArgs) : ProcInvocation :=
  { cmd := buildCmd a, timeout := 30 }

/-- The `LogAgent.grep_search` method of src/tools/log_agent.py lines
25-71, transcribed independently of the one in main.py. -/
def grep_search (a : GrepArgs) (run : ProcInvocation → ProcOutcome) : String :=
  match run (grepInvocation a) with
  | .completed rc out err =>
      if rc = 0 then "Found matches:\n" ++ out
      else if rc = 1 then
        "No matches found for pattern \x27" ++ a.pattern ++ "\x27 in file \x27" ++
          a.file_path ++ "\x27"
      else "Error running grep: " ++ err
  | .timeoutExpired => "Grep command timed out (30 seconds)"
  | .fileNotFound => "File not found: " ++ a.file_path
  | .otherError msg => "Error executing grep: " ++ msg

end LogAgent

/-- The normalized forms a search result string can take, per the result
encoding of the tool (spec section 4.1, src/main.py lines 43-55). -/
def IsNormalizedResult (a : GrepArgs) (s : String) : Prop :=
  (∃ out, s = "Found matches:\n" ++ out) ∨
  s = "No matches found for pattern \x27" ++ a.pattern ++ "\x27 in file \x27" ++
      a.file_path ++ "\x27" ∨
  (∃ err, s = "Error running grep: " ++ err) ∨
  s = "Grep command timed out (30 seconds)" ∨
  s = "File not found: " ++ a.file_path ∨
  (∃ msg, s = "Error executing grep: " ++ msg)

/-- The configuration record built at src/config.py lines 11-15: each of
the three values comes from the environment and is `none` when the key is
absent there (`dotenv.get_key` returns None for an absent key). -/
structure CompletionClientConfig where
  api_key : Option String
  model : Option String
  base_url : Option String
deriving DecidableEq

/-- The items of `COMPLETION_CLIENT_CONFIG`, in Python dict insertion
order (src/config.py lines 11-15). -/
def CompletionClientConfig.items (c : CompletionClientConfig) : List (String × Option String) :=
  [("api_key", c.api_key), ("model", c.model), ("base_url", c.base_url)]

/-- `Config.validate` from src/config.py lines 17-24: collect the keys
whose value is None, and raise (here: return an error) exactly when that
list is nonempty, with the message listing all collected keys. -/
def Config.validate (c : CompletionClientConfig) : Except String Unit :=
  let missing := c.items.foldl (fun acc kv => if kv.2 = none then acc ++ [kv.1] else acc) []
  if missing.isEmpty then Except.ok ()
  else Except.error ("Missing required configuration(s): " ++ String.intercalate ", " missing)

/-- The observable steps `main` in src/main.py performs at startup. -/
inductive StartupEvent where
  | validateConfig
  | constructModelClient (cfg : CompletionClientConfig)
  | constructAgent (name : String)
  | constructAgentTool (name : String)
  | runTask (task : String)
deriving DecidableEq

/-- The startup sequence of `main` (src/main.py lines 58-83), transcribed
step by step: it constructs the model client from the configuration
record, then the log-analysis agent, wraps it as a tool, constructs the
assistant agent, and runs the two example tasks. No step invokes
`Config.validate`. -/
def mainStartupTrace (cfg : CompletionClientConfig) : List StartupEvent :=
  [ StartupEvent.constructModelClient cfg,
    StartupEvent.constructAgent "log_analyst",
    StartupEvent.constructAgentTool "log_analyst",
    StartupEvent.constructAgent "assistant",
    StartupEvent.runTask
      "Search for all ERROR entries in the file sample.log and summarize what types of errors occurred",
    StartupEvent.runTask "Find all PaymentService related entries in sample.log" ]

/-- The `max_tool_iterations` argument passed to the assistant agent at
src/main.py line 78. -/
def mainAssistantMaxToolIterations : Nat := 10

/-- The `max_tool_iterations` argument passed to the assistant agent at
src/scavenger.py line 46. -/
def scavengerAssistantMaxToolIterations : Nat := 10

/-- One unit of conversation in a Run history (spec section 3). -/
inductive Message where
  | system (content : String)
  | user (content : String)
  | assistant (content : String)
  | tool (content : String)
deriving DecidableEq

/-- A tool selection made by a reasoning step: tool name and resolved
arguments (spec section 3, ToolInvocation). -/
structure ToolInvocation where
  name : String
  args : String
deriving DecidableEq

/-- The answer of one reasoning step of the completion backend: either a
direct textual answer or one or more tool selections (spec section 6). -/
inductive Step where
  | answer (text : String)
  | toolCalls (calls : List ToolInvocation)

/-- Terminal states of a Run (spec section 4.2). -/
inductive RunOutcome where
  | success (finalText : String)
  | iterationExceeded
deriving DecidableEq

/-- A Run owns an ordered message history and a mutable iteration
counter (spec section 3). -/
structure RunState where
  history : List Message
  counter : Nat
deriving DecidableEq

/-- Modelled from the spec: the bounded reasoning loop of the agent
framework (spec section 4.2), which is not under src/ (src/main.py and
src/scavenger.py only construct agents with a `max_tool_iterations`
bound). Each round asks the backend for a step given the history; a
textual answer terminates the Run with success; a tool selection executes
the tools, appends each result as a tool message, increments the counter
and loops; when the counter would exceed `maxIter`, the Run terminates
with a bounded-iteration failure instead of issuing another reasoning
step. -/
def runLoop (backend : List Message → Step) (execTool : ToolInvocation → String)
    (maxIter : Nat) (st : RunState) : RunOutcome × RunState :=
  if _h : maxIter ≤ st.counter then (RunOutcome.iterationExceeded, st)
  else
    match backend st.history with
    | Step.answer t =>
        (RunOutcome.success t, { st with history := st.history ++ [Message.assistant t] })
    | Step.toolCalls calls =>
        runLoop backend execTool maxIter
          { history := st.history ++ calls.map (fun c => Message.tool (execTool c)),
            counter := st.counter + 1 }
termination_by maxIter - st.counter
decreasing_by simp_wf; omega

/-- Modelled from the spec: a Run of an agent against a task starts from
a history holding the system prompt and the task as a user message, with
the iteration counter at zero (spec section 3, Run). -/
def runAgent (backend : List Message → Step) (execTool : ToolInvocation → String)
    (maxIter : Nat) (systemPrompt task : String) : RunOutcome × RunState :=
  runLoop backend execTool maxIter
    { history := [Message.system systemPrompt, Message.user task], counter := 0 }

/-- Unfolding equation for `runLoop`. -/
theorem runLoop_eq (backend : List Message → Step) (execTool : ToolInvocation → String)
    (maxIter : Nat) (st : RunState) :
    runLoop backend execTool maxIter st =
      if maxIter ≤ st.counter then (RunOutcome.iterationExceeded, st)
      else
        match backend st.history with
        | Step.answer t =>
            (RunOutcome.success t, { st with history := st.history ++ [Message.assistant t] })
        | Step.toolCalls calls =>
            runLoop backend execTool maxIter
              { history := st.history ++ calls.map (fun c => Message.tool (execTool c)),
                counter := st.counter + 1 } := by
  rw [runLoop, dite_eq_ite]

/-- The final iteration counter of a Run never exceeds the bound, for
any backend whatsoever, provided the starting counter is within it. -/
theorem runLoop_counter_bounded (backend : List Message → Step)
    (execTool : ToolInvocation → String) (maxIter : Nat) :
    ∀ k st, maxIter - st.counter ≤ k → st.counter ≤ maxIter →
      (runLoop backend execTool maxIter st).2.counter ≤ maxIter := by
  intro k
  induction k with
  | zero =>
      intro st hk hle
      have h : maxIter ≤ st.counter := by omega
      rw [runLoop_eq]
      simp only [if_pos h]
      exact hle
  | succ n ih =>
      intro st hk hle
      by_cases h : maxIter ≤ st.counter
      · rw [runLoop_eq]
        simp only [if_pos h]
        exact hle
      · rw [runLoop_eq]
        simp only [if_neg h]
        cases hb : backend st.history with
        | answer t => exact hle
        | toolCalls calls =>
            refine ih _ ?_ ?_
            · show maxIter - (st.counter + 1) ≤ n
              omega
            · show st.counter + 1 ≤ maxIter
              omega

/-- A Run whose backend always selects a tool terminates with the
bounded-iteration failure. -/
theorem runLoop_always_tool_exceeds (backend : List Message → Step)
    (execTool : ToolInvocation → String) (maxIter : Nat)
    (halways : ∀ hist, ∃ calls, backend hist = Step.toolCalls calls) :
    ∀ k st, maxIter - st.counter ≤ k →
      (runLoop backend execTool maxIter st).1 = RunOutcome.iterationExceeded := by
  intro k
  induction k with
  | zero =>
      intro st hk
      have h : maxIter ≤ st.counter := by omega
      rw [runLoop_eq]
      simp only [if_pos h]
  | succ n ih =>
      intro st hk
      by_cases h : maxIter ≤ st.counter
      · rw [runLoop_eq]
        simp only [if_pos h]
      · obtain ⟨calls, hc⟩ := halways st.history
        rw [runLoop_eq]
        simp only [if_neg h, hc]
        refine ih _ ?_
        show maxIter - (st.counter + 1) ≤ n
        omega

/-- C1: for every call to `grep_search`, the exit status of the external
process determines the returned string: status 0 yields "Found matches:"
plus a newline plus the raw standard output, status 1 yields exactly the
no-matches message with the pattern and file path substituted, and any
other status yields "Error running grep: " plus the standard-error text. -/
theorem grep_search_exit_status_determines_result
    (a : GrepArgs) (run : ProcInvocation → ProcOutcome)
    (rc : Int) (out err : String)
    (h : run (Main.grepInvocation a) = ProcOutcome.completed rc out err) :
    (rc = 0 → Main.grep_search a run = "Found matches:\n" ++ out) ∧
    (rc = 1 → Main.grep_search a run =
      "No matches found for pattern \x27" ++ a.pattern ++ "\x27 in file \x27" ++
        a.file_path ++ "\x27") ∧
    (rc ≠ 0 → rc ≠ 1 → Main.grep_search a run = "Error running grep: " ++ err) := by
  unfold Main.grep_search
  rw [h]
  refine ⟨fun h0 => ?_, fun h1 => ?_, fun h0 h1 => ?_⟩
  · simp [h0]
  · subst h1
    norm_num
  · simp [h0, h1]

/-- C1 witness: a concrete input evaluated under oracles completing with
exit status 0, 1 and 2. -/
theorem grep_search_exit_status_witness :
    Main.grep_search ⟨"ERROR", "sample.log", true, false, 0⟩
        (fun _ => ProcOutcome.completed 0 "log line\n" "") = "Found matches:\n" ++ "log line\n" ∧
    Main.grep_search ⟨"ERROR", "sample.log", true, false, 0⟩
        (fun _ => ProcOutcome.completed 1 "" "") =
      "No matches found for pattern \x27" ++ "ERROR" ++ "\x27 in file \x27" ++
        "sample.log" ++ "\x27" ∧
    Main.grep_search ⟨"ERROR", "sample.log", true, false, 0⟩
        (fun _ => ProcOutcome.completed 2 "" "grep: trouble") =
      "Error running grep: " ++ "grep: trouble" :=
  ⟨(grep_search_exit_status_determines_result ⟨"ERROR", "sample.log", true, false, 0⟩
      (fun _ => ProcOutcome.completed 0 "log line\n" "") 0 "log line\n" "" rfl).1 rfl,
   (grep_search_exit_status_determines_result ⟨"ERROR", "sample.log", true, false, 0⟩
      (fun _ => ProcOutcome.completed 1 "" "") 1 "" "" rfl).2.1 rfl,
   (grep_search_exit_status_determines_result ⟨"ERROR", "sample.log", true, false, 0⟩
      (fun _ => ProcOutcome.completed 2 "" "grep: trouble") 2 "" "grep: trouble" rfl).2.2
     (by decide) (by decide)⟩

/-- C2: when the process invocation raises the file-not-found condition,
`grep_search` returns the string "File not found: " followed by the file
path (in particular the result begins with "File not found:"), and no
exception reaches the caller: the handler converts the condition into
this return value, and `grep_search` is a total function on every
outcome. -/
theorem grep_search_file_not_found
    (a : GrepArgs) (run : ProcInvocation → ProcOutcome)
    (h : run (Main.grepInvocation a) = ProcOutcome.fileNotFound) :
    Main.grep_search a run = "File not found: " ++ a.file_path ∧
    (∃ rest, Main.grep_search a run = "File not found:" ++ rest) := by
  have hr : Main.grep_search a run = "File not found: " ++ a.file_path := by
    unfold Main.grep_search
    rw [h]
  exact ⟨hr, " " ++ a.file_path, by rw [hr]; exact congrArg String.mk rfl⟩

/-- C2 witness: a concrete call whose oracle reports the file-not-found
condition. -/
theorem grep_search_file_not_found_witness :
    Main.grep_search ⟨"ERROR", "missing.log", true, false, 0⟩
        (fun _ => ProcOutcome.fileNotFound) = "File not found: " ++ "missing.log" ∧
    (∃ rest, Main.grep_search ⟨"ERROR", "missing.log", true, false, 0⟩
        (fun _ => ProcOutcome.fileNotFound) = "File not found:" ++ rest) :=
  grep_search_file_not_found ⟨"ERROR", "missing.log", true, false, 0⟩
    (fun _ => ProcOutcome.fileNotFound) rfl

/-- C5: `grep_search` is total over its public interface: for every
argument tuple and every outcome of the external process (completion with
any exit status, timeout, spawn failure, or any other exception), the
call returns a string of one of the normalized result forms and never
propagates an exception. -/
theorem grep_search_total (a : GrepArgs) (run : ProcInvocation → ProcOutcome) :
    IsNormalizedResult a (Main.grep_search a run) := by
  unfold IsNormalizedResult
  cases hr : run (Main.grepInvocation a) with
  | completed rc out err =>
      by_cases h0 : rc = 0
      · exact Or.inl ⟨out, by simp [Main.grep_search, hr, h0]⟩
      · by_cases h1 : rc = 1
        · exact Or.inr (Or.inl (by simp [Main.grep_search, hr, h0, h1]))
        · exact Or.inr (Or.inr (Or.inl ⟨err, by simp [Main.grep_search, hr, h0, h1]⟩))
  | timeoutExpired =>
      exact Or.inr (Or.inr (Or.inr (Or.inl (by simp [Main.grep_search, hr]))))
  | fileNotFound =>
      exact Or.inr (Or.inr (Or.inr (Or.inr (Or.inl (by simp [Main.grep_search, hr])))))
  | otherError msg =>
      exact Or.inr (Or.inr (Or.inr (Or.inr (Or.inr ⟨msg, by simp [Main.grep_search, hr]⟩))))

/-- C7: on every call the timeout bound passed to the process invocation
is 30, and when the process does not complete within it the returned
string is exactly "Grep command timed out (30 seconds)". -/
theorem grep_search_timeout (a : GrepArgs) (run : ProcInvocation → ProcOutcome) :
    (Main.grepInvocation a).timeout = 30 ∧
    (run (Main.grepInvocation a) = ProcOutcome.timeoutExpired →
      Main.grep_search a run = "Grep command timed out (30 seconds)") := by
  refine ⟨rfl, fun h => ?_⟩
  unfold Main.grep_search
  rw [h]

/-- C7 witness: a concrete call whose oracle reports the timeout. -/
theorem grep_search_timeout_witness :
    (Main.grepInvocation ⟨"ERROR", "sample.log", true, false, 0⟩).timeout = 30 ∧
    ((fun _ => ProcOutcome.timeoutExpired : ProcInvocation → ProcOutcome)
        (Main.grepInvocation ⟨"ERROR", "sample.log", true, false, 0⟩) =
          ProcOutcome.timeoutExpired →
      Main.grep_search ⟨"ERROR", "sample.log", true, false, 0⟩
        (fun _ => ProcOutcome.timeoutExpired) = "Grep command timed out (30 seconds)") :=
  grep_search_timeout ⟨"ERROR", "sample.log", true, false, 0⟩ (fun _ => ProcOutcome.timeoutExpired)

/-- C8: `context_lines <= 0` never puts a context flag into the
constructed invocation, and `context_lines > 0` always puts the flag `-C`
followed by the decimal rendering of `context_lines` into it. -/
theorem grep_context_flag (a : GrepArgs) :
    (a.context_lines ≤ 0 →
      Main.buildCmd a = ["grep"] ++ (if a.line_numbers then ["-n"] else []) ++
        (if a.ignore_case then ["-i"] else []) ++ [a.pattern, a.file_path]) ∧
    (0 < a.context_lines →
      Main.buildCmd a = ["grep"] ++ (if a.line_numbers then ["-n"] else []) ++
        (if a.ignore_case then ["-i"] else []) ++ ["-C", toString a.context_lines] ++
        [a.pattern, a.file_path]) := by
  unfold Main.buildCmd
  constructor
  · intro h
    have hno : ¬ a.context_lines > 0 := by omega
    cases hln : a.line_numbers <;> cases hic : a.ignore_case <;> simp [hno]
  · intro h
    cases hln : a.line_numbers <;> cases hic : a.ignore_case <;> simp [h]

/-- C8 witness: concrete calls with `context_lines = 0` and with
`context_lines = 2`. -/
theorem grep_context_flag_witness :
    Main.buildCmd ⟨"ERROR", "sample.log", true, false, 0⟩ =
      ["grep"] ++ (if true then ["-n"] else []) ++ (if false then ["-i"] else []) ++
        ["ERROR", "sample.log"] ∧
    Main.buildCmd ⟨"ERROR", "sample.log", true, false, 2⟩ =
      ["grep"] ++ (if true then ["-n"] else []) ++ (if false then ["-i"] else []) ++
        ["-C", toString (2 : Int)] ++ ["ERROR", "sample.log"] :=
  ⟨(grep_context_flag ⟨"ERROR", "sample.log", true, false, 0⟩).1 (by decide),
   (grep_context_flag ⟨"ERROR", "sample.log", true, false, 2⟩).2 (by decide)⟩

/-- C9: the module-level `grep_search` in main.py and the
`LogAgent.grep_search` method in log_agent.py are extensionally equal:
on every argument tuple they issue the same process invocation (same
command list, same timeout) and, for every outcome of the external
process, return the same result string. -/
theorem grep_search_implementations_agree
    (a : GrepArgs) (run : ProcInvocation → ProcOutcome) :
    LogAgent.grepInvocation a = Main.grepInvocation a ∧
    LogAgent.grep_search a run = Main.grep_search a run :=
  ⟨rfl, rfl⟩

/-- C10: the constructed command list is exactly `grep`, then `-n` iff
`line_numbers`, then `-i` iff `ignore_case`, then `-C` with the decimal
rendering of `context_lines` iff `context_lines > 0`, and the pattern and
the file path are always the final two elements; the equation holds for
every pattern and file path, including empty ones, so no non-emptiness
validation takes place. -/
theorem grep_command_shape (p f : String) (ln ic : Bool) (cl : Int) :
    Main.buildCmd ⟨p, f, ln, ic, cl⟩ =
      ["grep"] ++ (if ln then ["-n"] else []) ++ (if ic then ["-i"] else []) ++
        (if cl > 0 then ["-C", toString cl] else []) ++ [p, f] := by
  unfold Main.buildCmd
  cases ln <;> cases ic <;> by_cases h : cl > 0 <;> simp [h]

/-- C3 counterexample: with only the `model` key missing, `main` does
not fail fast: its startup sequence contains no call to
`Config.validate` and does construct both agents, contrary to the claim
that startup validation fails before any agent is constructed. -/
theorem startup_missing_model_no_failfast :
    StartupEvent.validateConfig ∉
      mainStartupTrace { api_key := some "k", model := none, base_url := some "u" } ∧
    StartupEvent.constructAgent "log_analyst" ∈
      mainStartupTrace { api_key := some "k", model := none, base_url := some "u" } ∧
    StartupEvent.constructAgent "assistant" ∈
      mainStartupTrace { api_key := some "k", model := none, base_url := some "u" } := by
  refine ⟨?_, ?_, ?_⟩ <;> simp [mainStartupTrace]

/-- C3 amended: `Config.validate`, when invoked on a configuration whose
only absent value is `model`, raises an error listing `model` as the sole
missing key; but `main` never invokes `Config.validate`, so startup
constructs its agents without any configuration validation. -/
theorem config_validate_missing_model_only (k u : String) :
    Config.validate { api_key := some k, model := none, base_url := some u } =
      Except.error ("Missing required configuration(s): " ++ "model") ∧
    StartupEvent.validateConfig ∉
      mainStartupTrace { api_key := some k, model := none, base_url := some u } ∧
    StartupEvent.constructAgent "assistant" ∈
      mainStartupTrace { api_key := some k, model := none, base_url := some u } := by
  refine ⟨rfl, ?_, ?_⟩ <;> simp [mainStartupTrace]

/-- C4: a Run whose reasoning step always selects a tool performs at
most `maxIter` tool-invocation rounds, terminates with the
bounded-iteration failure rather than looping, and its final iteration
counter never exceeds `maxIter`; the bound is set to 10 for the
orchestrator agents constructed in src/main.py and src/scavenger.py. -/
theorem run_bounded_iteration
    (backend : List Message → Step) (execTool : ToolInvocation → String)
    (maxIter : Nat) (systemPrompt task : String)
    (halways : ∀ hist, ∃ calls, backend hist = Step.toolCalls calls) :
    (runAgent backend execTool maxIter systemPrompt task).1 = RunOutcome.iterationExceeded ∧
    (runAgent backend execTool maxIter systemPrompt task).2.counter ≤ maxIter ∧
    mainAssistantMaxToolIterations = 10 ∧
    scavengerAssistantMaxToolIterations = 10 := by
  refine ⟨?_, ?_, rfl, rfl⟩
  · exact runLoop_always_tool_exceeds backend execTool maxIter halways maxIter _ (by simp)
  · exact runLoop_counter_bounded backend execTool maxIter maxIter _ (by simp) (Nat.zero_le _)

/-- C4 witness: a concrete Run with a backend that always delegates to a
tool and the bound 10 used by the orchestrator agents. -/
theorem run_bounded_iteration_witness :
    (runAgent (fun _ => Step.toolCalls [⟨"log_analyst", "sample.log"⟩])
        (fun _ => "tool result") 10 "You are a general assistant." "Find ERROR entries").1 =
      RunOutcome.iterationExceeded ∧
    (runAgent (fun _ => Step.toolCalls [⟨"log_analyst", "sample.log"⟩])
        (fun _ => "tool result") 10 "You are a general assistant." "Find ERROR entries").2.counter ≤ 10 ∧
    mainAssistantMaxToolIterations = 10 ∧
    scavengerAssistantMaxToolIterations = 10 :=
  run_bounded_iteration (fun _ => Step.toolCalls [⟨"log_analyst", "sample.log"⟩])
    (fun _ => "tool result") 10 "You are a general assistant." "Find ERROR entries"
    (fun _ => ⟨[⟨"log_analyst", "sample.log"⟩], rfl⟩)

/-- C6 counterexample: a configuration whose `api_key` is present but
empty; the claim says `validate` raises for an absent or empty value, but
the code checks only for None, so `validate` returns without raising. -/
theorem config_validate_accepts_empty_value :
    ({ api_key := some "", model := some "gpt", base_url := some "http:" }
        : CompletionClientConfig).api_key = some "" ∧
    Config.validate { api_key := some "", model := some "gpt", base_url := some "http:" } =
      Except.ok () :=
  ⟨rfl, rfl⟩

/-- C6 amended: `Config.validate` raises an error if and only if at
least one of the three values is absent (None), and the error message
lists every absent key, in the order api_key, model, base_url; values
that are present but empty are accepted. -/
theorem config_validate_characterization (c : CompletionClientConfig) :
    Config.validate c =
      (if (if c.api_key = none then ["api_key"] else []) ++
          (if c.model = none then ["model"] else []) ++
          (if c.base_url = none then ["base_url"] else []) = [] then Except.ok ()
       else Except.error ("Missing required configuration(s): " ++
         String.intercalate ", "
           ((if c.api_key = none then ["api_key"] else []) ++
            (if c.model = none then ["model"] else []) ++
            (if c.base_url = none then ["base_url"] else [])))) ∧
    (Config.validate c = Except.ok () ↔
      c.api_key ≠ none ∧ c.model ≠ none ∧ c.base_url ≠ none) := by
  obtain ⟨a, m, b⟩ := c
  constructor
  · cases a <;> cases m <;> cases b <;> rfl
  · cases a <;> cases m <;> cases b <;>
      simp [Config.validate, CompletionClientConfig.items]

end Scavenger
